import Mathlib

/-!
Verification development for the MCP agent host (`main.py`), the CRM / email
tool servers (`crm_server.py`, `email_server.py`) and their shared helpers.

Strings are modelled as `List Char` (ASCII fragment of Python `str`).
Python JSON values (the results of `json.loads` / inputs of `json.dumps`)
are modelled by the inductive `PyJson`; numbers are modelled as integers.
External effects — the completion provider, the MCP tool processes, the
clock and the UUID generator — are modelled as explicit parameters of the
functions that consume them.
-/

set_option maxHeartbeats 1000000

/-- Coerce a Lean string literal to the `List Char` representation used
throughout this development. -/
def strL (s : String) : List Char := s.data

/-- ASCII whitespace recognised by Python `str.strip()` (space, tab, newline,
carriage return, vertical tab, form feed; the Unicode cases are outside the
modelled ASCII fragment). -/
def isPySpace (c : Char) : Bool :=
  c = ' ' || c = Char.ofNat 9 || c = Char.ofNat 10 || c = Char.ofNat 13 || c = Char.ofNat 11 || c = Char.ofNat 12

/-- Python `str.strip()` on the ASCII fragment. -/
def pyStrip (s : List Char) : List Char :=
  ((s.dropWhile isPySpace).reverse.dropWhile isPySpace).reverse

/-- Python `str.lower()` on the ASCII fragment. -/
def pyLower (s : List Char) : List Char := s.map Char.toLower

/-- Python `str.upper()` on the ASCII fragment. -/
def pyUpper (s : List Char) : List Char := s.map Char.toUpper

/-- Python substring containment `needle in hay` (empty needle is contained
in everything, as in Python). -/
def hasSub (needle : List Char) : List Char → Bool
  | [] => needle.isEmpty
  | c :: rest => needle.isPrefixOf (c :: rest) || hasSub needle rest

/-- Python JSON values as produced by `json.loads`.  Numbers are modelled as
integers (no claim in this development depends on float values). -/
inductive PyJson where
  | jnull : PyJson
  | jbool : Bool → PyJson
  | jnum : Int → PyJson
  | jstr : List Char → PyJson
  | jarr : List PyJson → PyJson
  | jobj : List (List Char × PyJson) → PyJson

/-- Python truthiness of a JSON value (`None`, `False`, `0`, `""`, `[]`, `{}`
are falsy, everything else truthy). -/
def pyTruthy : PyJson → Bool
  | .jnull => false
  | .jbool b => b
  | .jnum n => n != 0
  | .jstr s => !s.isEmpty
  | .jarr l => !l.isEmpty
  | .jobj l => !l.isEmpty

/-- Decimal rendering of an integer, as Python `str` renders `int`. -/
def intStr (n : Int) : List Char :=
  if n < 0 then '-' :: Nat.toDigits 10 n.natAbs else Nat.toDigits 10 n.natAbs

/-- Comma-space join used by Python container `repr`. -/
def joinComma (xs : List (List Char)) : List Char :=
  List.intercalate (strL ", ") xs

mutual

/-- Python `repr` of a JSON value (ASCII fragment; strings are shown between
single quotes without escaping — no claim depends on the rendering of strings
that contain quotes). -/
def pyRepr : PyJson → List Char
  | .jnull => strL "None"
  | .jbool true => strL "True"
  | .jbool false => strL "False"
  | .jnum n => intStr n
  | .jstr s => Char.ofNat 39 :: s ++ [Char.ofNat 39]
  | .jarr l => '[' :: joinComma (pyReprList l) ++ [']']
  | .jobj l => Char.ofNat 123 :: joinComma (pyReprPairs l) ++ [Char.ofNat 125]

/-- Rendering (`repr`) of the elements of a JSON array. -/
def pyReprList : List PyJson → List (List Char)
  | [] => []
  | x :: xs => pyRepr x :: pyReprList xs

/-- Rendering (`repr`) of the key/value pairs of a JSON object. -/
def pyReprPairs : List (List Char × PyJson) → List (List Char)
  | [] => []
  | (k, v) :: xs => (Char.ofNat 39 :: k ++ Char.ofNat 39 :: strL ": " ++ pyRepr v) :: pyReprPairs xs

end

/-- Python `str` of a JSON value: identity on strings, `None`/`True`/`False`
for the scalars, and `repr` for containers. -/
def pyStr : PyJson → List Char
  | .jstr s => s
  | .jnull => strL "None"
  | .jbool true => strL "True"
  | .jbool false => strL "False"
  | .jnum n => intStr n
  | .jarr l => pyRepr (.jarr l)
  | .jobj l => pyRepr (.jobj l)

/-- Lookup in a Python dict modelled as an insertion-ordered association list
(`d.get(k)`): the binding of the first matching key. -/
def alookup {α : Type} : List (List Char × α) → List Char → Option α
  | [], _ => none
  | (k, v) :: rest, n => if k = n then some v else alookup rest n

/-- Python dict assignment `d[k] = v` on an insertion-ordered association
list: overwrite the first binding of `k` in place, otherwise append. -/
def dictSet {α : Type} : List (List Char × α) → List Char → α → List (List Char × α)
  | [], k, v => [(k, v)]
  | (k1, v1) :: rest, k, v =>
    if k1 = k then (k, v) :: rest else (k1, v1) :: dictSet rest k v

/-! Policy Guard (`run_agent`, `main.py` lines 234-303). -/

/-- Word characters of the `re` module's `\w` on the ASCII fragment
(letters, digits, underscore). -/
def isWordChar (c : Char) : Bool := c.isAlphanum || c = '_'

/-- After a digit run, `\b` holds exactly when the first non-digit position
is a non-word character (or the string ends). -/
def digitRunBoundary : List Char → Bool
  | [] => true
  | c :: rest => if c.isDigit then digitRunBoundary rest else !isWordChar c

/-- Matches `\d+\b`: at least one ASCII digit, with a word boundary after the
maximal digit run (a shorter match is never possible because digits are word
characters). -/
def ordTail : List Char → Bool
  | [] => false
  | c :: rest => c.isDigit && digitRunBoundary rest

/-- Matches `ORD-\d+\b` (case-insensitive) at the current position. -/
def ordHere : List Char → Bool
  | c1 :: c2 :: c3 :: c4 :: rest =>
    (c1 = 'O' || c1 = 'o') && (c2 = 'R' || c2 = 'r') && (c3 = 'D' || c3 = 'd') &&
      c4 = '-' && ordTail rest
  | _ => false

/-- Scan for a match of `\bORD-\d+\b`, carrying the previous character so the
leading `\b` can be decided (`none` = start of string). -/
def ordScan : Option Char → List Char → Bool
  | _, [] => false
  | prev, c :: rest =>
    ((match prev with
      | none => true
      | some p => !isWordChar p) && ordHere (c :: rest)) || ordScan (some c) rest

/-- The search `re.search(r"\bORD-\d+\b", user_input or "", flags=re.IGNORECASE)`
(`main.py` line 238), on the ASCII fragment. -/
def order_id_present (s : List Char) : Bool := ordScan none s

/-- The fixed block-keyword list of `main.py` lines 244-256. -/
def suspiciousKeywords : List (List Char) :=
  [ strL "tell me a joke"
  , strL "say something funny"
  , strL "ignore your instructions"
  , strL "ignore the above"
  , strL "system:"
  , strL "developer message"
  , strL "show your system prompt"
  , strL "reveal hidden rules"
  , strL "prompt injection"
  , strL "write a poem"
  , strL "life advice" ]

/-- The flag `suspicious = any(k in lowered for k in [...])` (`main.py` lines 241-257). -/
def suspicious (userInput : List Char) : Bool :=
  suspiciousKeywords.any (fun k => hasSub k (pyLower userInput))

/-- The guard classifier is only consulted when neither deterministic fast
path fires (`main.py` lines 260-264). -/
def guardConsultsClassifier (userInput : List Char) : Bool :=
  !order_id_present userInput && !suspicious userInput

/-- The `guard_decision` value after lines 259-291 of `main.py`.
`classifierParse` is the result of `json.loads` on the classifier's output
text when the classifier branch is taken (`none` = the parse raised). -/
def guardDecisionObj (userInput : List Char) (classifierParse : Option PyJson) : PyJson :=
  if order_id_present userInput then
    .jobj [(strL "decision", .jstr (strL "ALLOW")), (strL "reason", .jstr (strL "Contains order id."))]
  else if suspicious userInput then
    .jobj [(strL "decision", .jstr (strL "BLOCK")), (strL "reason", .jstr (strL "out_of_scope_or_injection"))]
  else
    match classifierParse with
    | some v => v
    | none => .jobj [(strL "decision", .jstr (strL "CLARIFY")), (strL "reason", .jstr (strL "unparseable_guard_output"))]

/-- The statement `decision = str((guard_decision or {}).get("decision", "CLARIFY")).upper()`
(`main.py` line 293).  `.get` exists only on dicts; on a truthy non-dict value
the attribute access raises (`AttributeError`), modelled as `Except.error`. -/
def decisionStep (gd : PyJson) : Except Unit (List Char) :=
  let base := if pyTruthy gd then gd else .jobj []
  match base with
  | .jobj l => .ok (pyUpper (pyStr ((alookup l (strL "decision")).getD (.jstr (strL "CLARIFY")))))
  | _ => .error ()

/-- Observable outcome of the guard section of `run_agent`. -/
inductive GuardOutcome where
  | blocked : GuardOutcome
  | clarified : GuardOutcome
  | allowed : GuardOutcome
  | crashed : GuardOutcome
deriving DecidableEq

/-- The guard section of `run_agent` (`main.py` lines 236-303): decision
extraction followed by the `BLOCK` / `CLARIFY` early returns; anything else
falls through to the conversation loop. -/
def policyGuardOutcome (userInput : List Char) (classifierParse : Option PyJson) : GuardOutcome :=
  match decisionStep (guardDecisionObj userInput classifierParse) with
  | .error _ => .crashed
  | .ok d =>
    if d = strL "BLOCK" then .blocked
    else if d = strL "CLARIFY" then .clarified
    else .allowed

/-! Routing table, dispatcher and conversation loop (`main.py` lines 159-485). -/

/-- The two configured tool servers of `run_agent` (`crm_ws`, `email_ws`). -/
inductive ConnName where
  | crm : ConnName
  | email : ConnName
deriving DecidableEq

/-- The dict `sessions_by_tool` built at `main.py` lines 180-184: every CRM tool name
is assigned first, then every email tool name, with ordinary dict-assignment
overwrite semantics. -/
def buildRoutingTable (crmTools emailTools : List (List Char)) : List (List Char × ConnName) :=
  emailTools.foldl (fun m t => dictSet m t .email)
    (crmTools.foldl (fun m t => dictSet m t .crm) [])

/-- One content part of an MCP `call_tool` result: `text` models
`getattr(part, "text", None)` and `rep` models `repr(part)`. -/
structure ContentPart where
  text : Option (List Char)
  rep : List Char

/-- The `content` attribute of an MCP `call_tool` result: either a list of
content parts, or (defensively, in `_dispatch_tool_call`) any other value,
carried here as its `str` rendering. -/
inductive ToolCallContent where
  | parts : List ContentPart → ToolCallContent
  | scalar : List Char → ToolCallContent

/-- Python `repr` of a list given the `repr`s of its elements. -/
def reprOfList (reps : List (List Char)) : List Char :=
  '[' :: joinComma reps ++ [']']

/-- The content-rendering half of `_dispatch_tool_call` (`main.py` lines
147-154): join the textual parts with newlines, falling back to `repr` of the
part list when no part is textual. -/
def renderContent (parts : List ContentPart) : List Char :=
  let texts := parts.filterMap ContentPart.text
  if texts.isEmpty then reprOfList (parts.map ContentPart.rep)
  else List.intercalate (strL "\n") texts

/-- The function `_dispatch_tool_call` (`main.py` lines 133-156): look the tool up in the
routing table — absent means `RuntimeError`, modelled as `Except.error`
carrying the tool name — otherwise invoke the tool on its owning connection
and render the result to a single string.  `callTool` models the external
`session.call_tool` round trip. -/
def dispatch_tool_call (table : List (List Char × ConnName))
    (callTool : ConnName → List Char → List (List Char × PyJson) → ToolCallContent)
    (toolName : List Char) (args : List (List Char × PyJson)) : Except (List Char) (List Char) :=
  match alookup table toolName with
  | none => .error toolName
  | some conn =>
    match callTool conn toolName args with
    | .parts l => .ok (renderContent l)
    | .scalar s => .ok s

/-- Message roles of the conversation state. -/
inductive Role where
  | system : Role
  | user : Role
  | assistant : Role
  | tool : Role
deriving DecidableEq

/-- One tool call requested by the provider, already normalized across the
two response shapes: call id, tool name, and the parsed argument map (the
JSON-string-to-map decoding of `arguments` is abstracted; no claim concerns
malformed argument strings). -/
structure ToolCallReq where
  id : List Char
  name : List Char
  args : List (List Char × PyJson)

/-- One entry of the `messages` conversation state. -/
structure Message where
  role : Role
  content : List Char
  name : Option (List Char)
  toolCallId : Option (List Char)
  toolCalls : List ToolCallReq

/-- One provider response, normalized across the Chat Completions and
Responses shapes into text plus a tool-call list (empty list = final text;
`text` is the final/assistant text content, `none` = absent). -/
structure ProviderResponse where
  text : Option (List Char)
  calls : List ToolCallReq

/-- Observable externally-visible steps taken by the body of `run_agent`
(between connection opening and cleanup). -/
inductive BodyEv where
  | listedTools : ConnName → BodyEv
  | completionRequest : BodyEv
  | dispatched : List Char → BodyEv
deriving DecidableEq

/-- Environment of the conversation loop: the routing table, the external
tool processes (`callTool`), a model of `json.loads` on arbitrary payload
strings (`parseJson`, `none` = the parse raised), the provider responses per
cycle, and whether `OPENAI_BASE_URL` selects the Chat Completions shape. -/
structure RunEnv where
  table : List (List Char × ConnName)
  callTool : ConnName → List Char → List (List Char × PyJson) → ToolCallContent
  parseJson : List Char → Option PyJson
  responses : Nat → ProviderResponse
  baseUrl : Bool

/-- The test `tool_name.lower().startswith("send")` (`main.py` lines 379 and 452). -/
def startsWithSend (name : List Char) : Bool :=
  (strL "send").isPrefixOf (pyLower name)

/-- The confirmation text printed after a send-class tool completed
(`main.py` lines 381-394 and 453-466): includes the `message_id` extracted
from the JSON payload when it parses to a dict with a truthy `message_id`. -/
def mkConfirmation (parsed : Option PyJson) : List Char :=
  match parsed with
  | some (.jobj l) =>
    match alookup l (strL "message_id") with
    | some v =>
      if pyTruthy v then
        strL "Shipping confirmation sent (message_id=" ++ pyStr v ++ strL ")."
      else strL "Shipping confirmation sent."
    | none => strL "Shipping confirmation sent."
  | _ => strL "Shipping confirmation sent."

/-- The tool-role message appended for a non-terminal tool result
(`main.py` lines 398-405 and 470-477). -/
def toolMsg (c : ToolCallReq) (payload : List Char) : Message :=
  ⟨.tool, payload, some c.name, some c.id, []⟩

/-- The assistant message carrying the batch of tool calls, appended before
dispatch in the Chat Completions branch (`main.py` lines 347-360). -/
def assistantMsg (resp : ProviderResponse) : Message :=
  ⟨.assistant, resp.text.getD [], none, none, resp.calls⟩

/-- How handling one batch of tool calls ends. -/
inductive BatchStep where
  | terminal : List Char → BatchStep
  | dispatchFail : List Char → BatchStep
  | continueLoop : BatchStep

/-- Result of handling one batch: how it ended, the dispatch events emitted,
and the updated conversation state. -/
structure BatchOut where
  step : BatchStep
  events : List BodyEv
  msgs : List Message

/-- The per-batch dispatch loop (`main.py` lines 362-407 and 429-477): calls
are dispatched strictly in list order; a routing miss aborts the run; a
send-class tool short-circuits the rest of the batch, synthesizes the
confirmation, and appends no tool message; any other result is appended as a
tool-role message. -/
def processCalls (env : RunEnv) : List ToolCallReq → List Message → BatchOut
  | [], msgs => ⟨.continueLoop, [], msgs⟩
  | c :: rest, msgs =>
    match dispatch_tool_call env.table env.callTool c.name c.args with
    | .error n => ⟨.dispatchFail n, [], msgs⟩
    | .ok payload =>
      if startsWithSend c.name then
        ⟨.terminal (mkConfirmation (env.parseJson payload)), [.dispatched c.name], msgs⟩
      else
        let r := processCalls env rest (msgs ++ [toolMsg c payload])
        ⟨r.step, .dispatched c.name :: r.events, r.msgs⟩

/-- How the `for _ in range(8)` conversation loop ends. -/
inductive LoopExit where
  | finalText : List Char → LoopExit
  | terminalSend : List Char → LoopExit
  | exhausted : LoopExit
  | dispatchFail : List Char → LoopExit
deriving DecidableEq

/-- Result of the conversation loop: the exit, the completion-request and
dispatch events emitted, and the final conversation state. -/
structure LoopResult where
  exit : LoopExit
  events : List BodyEv
  msgs : List Message

/-- The conversation loop (`main.py` lines 315-479), with the remaining
iteration budget as fuel (`run_agent` starts it at 8; exhausting the budget
models `raise RuntimeError("Tool loop exceeded max iterations.")`).  Each
cycle issues one completion request; an empty tool-call list prints the final
text and returns; otherwise the batch is processed (the Chat Completions
branch first appends the assistant message carrying the calls). -/
def runLoop (env : RunEnv) : Nat → Nat → List Message → LoopResult
  | 0, _, msgs => ⟨.exhausted, [], msgs⟩
  | Nat.succ fuel, cyc, msgs =>
    let resp := env.responses cyc
    if resp.calls.isEmpty then
      ⟨.finalText (resp.text.getD []), [.completionRequest], msgs⟩
    else
      let msgs1 := if env.baseUrl then msgs ++ [assistantMsg resp] else msgs
      let b := processCalls env resp.calls msgs1
      match b.step with
      | .terminal conf => ⟨.terminalSend conf, .completionRequest :: b.events, b.msgs⟩
      | .dispatchFail n => ⟨.dispatchFail n, .completionRequest :: b.events, b.msgs⟩
      | .continueLoop =>
        let r := runLoop env fuel (cyc + 1) b.msgs
        ⟨r.exit, .completionRequest :: (b.events ++ r.events), r.msgs⟩

/-! Top-level `run_agent` (`main.py` lines 159-485): connection lifecycle,
credential check, guard, loop, and the `finally` cleanup block. -/

/-- Observable outcome reported by a run (the value returned or the
exception propagated out of `run_agent`). -/
inductive RunOutcome where
  | setupError : RunOutcome
  | blockedMsg : RunOutcome
  | clarifyMsg : RunOutcome
  | guardCrash : RunOutcome
  | finalText : List Char → RunOutcome
  | confirmed : List Char → RunOutcome
  | exhausted : RunOutcome
  | dispatchError : List Char → RunOutcome
deriving DecidableEq

/-- Events of a whole run: connection lifecycle, body steps, and the final
report (return value or propagated exception). -/
inductive Ev where
  | openedConn : ConnName → Ev
  | closedConn : ConnName → Ev
  | body : BodyEv → Ev
  | reported : RunOutcome → Ev
deriving DecidableEq

/-- Environment of a whole run: whether each MCP handshake succeeds, the
tool lists each server reports, whether the credential is present after
`(os.environ.get("OPENAI_API_KEY") or os.environ.get("OPENAI_KEY") or "").strip()`,
the protocol shape flag, the instruction, the guard classifier's parsed
output, and the loop-level externals. -/
structure HostEnv where
  crmConnects : Bool
  emailConnects : Bool
  crmTools : List (List Char)
  emailTools : List (List Char)
  apiKeyPresent : Bool
  baseUrl : Bool
  userInput : List Char
  guardParse : Option PyJson
  responses : Nat → ProviderResponse
  callTool : ConnName → List Char → List (List Char × PyJson) → ToolCallContent
  parseJson : List Char → Option PyJson

/-- The system prompt seeded at `main.py` lines 204-209 (ASCII fragment;
the quote characters around the keywords are written via their codes). -/
def systemPromptStr : List Char :=
  strL "You are a helpful Logistics Assistant. If the user asks a question about an order (e.g., status, notes, price), answer the question based on the tool result using natural language. ONLY call send_email if the user explicitly asks to " ++
  [Char.ofNat 39] ++ strL "process" ++ [Char.ofNat 39] ++ strL ", " ++
  [Char.ofNat 39] ++ strL "ship" ++ [Char.ofNat 39] ++ strL ", or " ++
  [Char.ofNat 39] ++ strL "confirm" ++ [Char.ofNat 39] ++ strL " the order. Never send an email for " ++
  [Char.ofNat 39] ++ strL "cancelled" ++ [Char.ofNat 39] ++ strL " orders."

/-- The seed conversation state (`main.py` lines 306-312). -/
def seedMsgs (userInput : List Char) : List Message :=
  [ ⟨.system, systemPromptStr, none, none, []⟩
  , ⟨.user, strL "Instruction: " ++ userInput, none, none, []⟩ ]

/-- Map a loop exit to the run's reported outcome. -/
def exitToOutcome : LoopExit → RunOutcome
  | .finalText t => .finalText t
  | .terminalSend c => .confirmed c
  | .exhausted => .exhausted
  | .dispatchFail n => .dispatchError n

/-- The body of `run_agent`'s `try` block after both connections are open
(`main.py` lines 176-479): list tools, build the routing table, check the
credential (the check happens after the connections are opened and the tools
listed), run the guard, then the conversation loop. -/
def runBody (env : HostEnv) : RunOutcome × List BodyEv :=
  let listed := [BodyEv.listedTools .crm, BodyEv.listedTools .email]
  if env.apiKeyPresent = false then (.setupError, listed)
  else
    let genv : RunEnv := ⟨buildRoutingTable env.crmTools env.emailTools,
      env.callTool, env.parseJson, env.responses, env.baseUrl⟩
    let gevs := if guardConsultsClassifier env.userInput then [BodyEv.completionRequest] else []
    match policyGuardOutcome env.userInput env.guardParse with
    | .blocked => (.blockedMsg, listed ++ gevs)
    | .clarified => (.clarifyMsg, listed ++ gevs)
    | .crashed => (.guardCrash, listed ++ gevs)
    | .allowed =>
      let r := runLoop genv 8 0 (seedMsgs env.userInput)
      (exitToOutcome r.exit, listed ++ gevs ++ r.events)

/-- The complete event trace of one `run_agent` call (`main.py` lines
159-485).  The two connections are opened in order (a handshake failure
leaves the corresponding variable `None` and raises); the `finally` block
(lines 481-485) closes the email connection when open, then the CRM
connection when open; the outcome (return or propagated exception) is
reported only after cleanup. -/
def run_agent (env : HostEnv) : List Ev :=
  let crmOpen := env.crmConnects
  let emailOpen := env.crmConnects && env.emailConnects
  let b : RunOutcome × List BodyEv :=
    if crmOpen && emailOpen then runBody env else (.setupError, [])
  let opens := (if crmOpen then [Ev.openedConn .crm] else []) ++
    (if emailOpen then [Ev.openedConn .email] else [])
  let closes := (if emailOpen then [Ev.closedConn .email] else []) ++
    (if crmOpen then [Ev.closedConn .crm] else [])
  (opens ++ b.2.map Ev.body ++ closes) ++ [Ev.reported b.1]

/-- Connections opened during a trace, in order. -/
def openedNames (tr : List Ev) : List ConnName :=
  tr.filterMap fun e => match e with | .openedConn c => some c | _ => none

/-- Connections closed during a trace, in order. -/
def closedNames (tr : List Ev) : List ConnName :=
  tr.filterMap fun e => match e with | .closedConn c => some c | _ => none

/-- Whether an event is the outcome report. -/
def isReportedEv (e : Ev) : Bool :=
  match e with | .reported _ => true | _ => false

/-- Number of outcome reports in a trace. -/
def countReported (tr : List Ev) : Nat := tr.countP isReportedEv

/-- Number of completion requests recorded in a body-event list. -/
def countCompletion (evs : List BodyEv) : Nat :=
  evs.countP fun e => match e with | .completionRequest => true | _ => false

/-! Email server (`email_server.py`).  `data.json` is modelled as the parsed
top-level dict; the message id (`uuid`) and timestamp (`time`) are explicit
parameters; file IO is abstracted to the load/save of that dict. -/

/-- The normalized customer email of an order dict:
`str(order.get("customer_email", "")).strip().lower()`
(`email_server.py` line 62). -/
def normEmailOf (order : List (List Char × PyJson)) : List Char :=
  pyLower (pyStrip (pyStr ((alookup order (strL "customer_email")).getD (.jstr []))))

/-- The scan of `_find_order_by_email` over the `orders` dict: the first
order whose normalized customer email matches, with non-dict entries
skipped (`email_server.py` lines 59-63). -/
def findOrderIn (norm : List Char) : List (List Char × PyJson) → Option (List Char × List (List Char × PyJson))
  | [] => none
  | (oid, v) :: rest =>
    match v with
    | .jobj o => if normEmailOf o = norm then some (oid, o) else findOrderIn norm rest
    | _ => findOrderIn norm rest

/-- The function `_find_order_by_email` (`email_server.py` lines 53-65): normalize the
email, fetch `data.get("orders", {})` (a non-dict yields no match), and scan
for the first matching order. -/
def find_order_by_email (data : List (List Char × PyJson)) (email : List Char) :
    Option (List Char × List (List Char × PyJson)) :=
  match (alookup data (strL "orders")).getD (.jobj []) with
  | .jobj orders => findOrderIn (pyLower (pyStrip email)) orders
  | _ => none

/-- The normalized status of an order dict:
`str(order.get("status", "")).strip().lower()` (`email_server.py` line 117). -/
def statusOf (order : List (List Char × PyJson)) : List Char :=
  pyLower (pyStrip (pyStr ((alookup order (strL "status")).getD (.jstr []))))

/-- The function `_append_email_event` (`email_server.py` lines 68-80): append the event
to `email_events` (creating the list when absent or non-list), refresh
`email_status` from the event's stripped `event` string (keeping the old
value when that string is empty), and copy `message_id` when the event has
that key. -/
def append_email_event (order : List (List Char × PyJson)) (event : List (List Char × PyJson)) :
    List (List Char × PyJson) :=
  let events := match alookup order (strL "email_events") with
    | some (.jarr l) => l
    | _ => []
  let order1 := dictSet order (strL "email_events") (.jarr (events ++ [.jobj event]))
  let evName := pyStrip (pyStr ((alookup event (strL "event")).getD (.jstr [])))
  let statusVal : PyJson :=
    if evName = [] then (alookup order1 (strL "email_status")).getD .jnull else .jstr evName
  let order2 := dictSet order1 (strL "email_status") statusVal
  match alookup event (strL "message_id") with
  | some v => dictSet order2 (strL "email_message_id") v
  | none => order2

/-- The tool `send_email` (`email_server.py` lines 84-149): returns the JSON value of
the reply payload together with the resulting `data.json` contents (the
original dict when nothing is saved).  An order found by customer email with
normalized status `cancelled` is left untouched and the reply carries
`skipped: "cancelled"`; otherwise the status is set to `shipped`, a `sent`
email event is appended, and the dict is saved. -/
def send_email (data : List (List Char × PyJson)) (email orderDetails msgId : List Char)
    (now : Int) : PyJson × List (List Char × PyJson) :=
  match find_order_by_email data email with
  | none =>
    (.jobj [(strL "ok", .jbool true), (strL "message_id", .jstr msgId), (strL "order_id", .jnull)], data)
  | some (oid, order) =>
    if statusOf order = strL "cancelled" then
      (.jobj [(strL "ok", .jbool true), (strL "message_id", .jstr msgId),
        (strL "order_id", .jstr oid), (strL "skipped", .jstr (strL "cancelled"))], data)
    else
      let order1 := dictSet order (strL "status") (.jstr (strL "shipped"))
      let event : List (List Char × PyJson) :=
        [ (strL "event", .jstr (strL "sent"))
        , (strL "message_id", .jstr msgId)
        , (strL "to", .jstr (pyStrip email))
        , (strL "type", .jstr (strL "shipping_confirmation"))
        , (strL "ts", .jnum now) ]
      let order2 := append_email_event order1 event
      let orders1 := match (alookup data (strL "orders")).getD (.jobj []) with
        | .jobj orders => dictSet orders oid (.jobj order2)
        | _ => []
      let data1 := dictSet data (strL "orders") (.jobj orders1)
      (.jobj [(strL "ok", .jbool true), (strL "message_id", .jstr msgId)], data1)

/-! Concrete environments used to evaluate the development on closed runs. -/

/-- A tool backend whose every call returns one textual content part. -/
def onlyTextParts : ConnName → List Char → List (List Char × PyJson) → ToolCallContent :=
  fun _ _ _ => .parts [⟨some (strL "ok"), strL "TextContent"⟩]

/-- A payload parser on which `json.loads` always raises. -/
def noParse : List Char → Option PyJson := fun _ => none

/-- A payload parser that always yields a dict with a `message_id`. -/
def someIdParse : List Char → Option PyJson :=
  fun _ => some (.jobj [(strL "message_id", .jstr (strL "m1"))])

/-- A run whose first provider response requests a tool that no server
exposes: both connections succeed, the credential is present, the
instruction carries an order id (so the guard allows deterministically), and
the tool lists are empty. -/
def envC2 : HostEnv :=
  ⟨true, true, [], [], true, false, strL "ship ORD-1 now", none,
    fun _ => ⟨none, [⟨strL "1", strL "mystery", []⟩]⟩, onlyTextParts, noParse⟩

/-- A run with both handshakes succeeding but the provider credential
missing from the environment. -/
def envC8 : HostEnv :=
  ⟨true, true, [strL "get_order"], [strL "send_email"], false, false, strL "x", none,
    fun _ => ⟨some [], []⟩, onlyTextParts, noParse⟩

/-- A loop environment whose provider requests the same routed non-terminal
tool on every cycle, so the loop never reaches a terminal state. -/
def renvW2 : RunEnv :=
  ⟨buildRoutingTable [strL "get_order"] [], onlyTextParts, noParse,
    fun _ => ⟨none, [⟨strL "1", strL "get_order", []⟩]⟩, false⟩

/-- A loop environment with one CRM tool and one send-class email tool. -/
def renvW4 : RunEnv :=
  ⟨buildRoutingTable [strL "get_order"] [strL "send_email"], onlyTextParts, someIdParse,
    fun _ => ⟨none, []⟩, false⟩

/-- A `data.json` contents with a single cancelled order. -/
def dataW10 : List (List Char × PyJson) :=
  [ (strL "orders", .jobj
      [ (strL "ORD-1", .jobj
          [ (strL "customer_email", .jstr (strL " A@x.com "))
          , (strL "status", .jstr (strL " CANCELLED ")) ]) ]) ]

/-- The payload a successful dispatch of one call returns (`[]` when the
dispatch would fail; only used under a routedness hypothesis). -/
def payloadOf (env : RunEnv) (c : ToolCallReq) : List Char :=
  (dispatch_tool_call env.table env.callTool c.name c.args).toOption.getD []

/-! Helper lemmas. -/

/-- Dict assignment followed by lookup behaves pointwise. -/
theorem alookup_dictSet {α : Type} (m : List (List Char × α)) (k : List Char) (v : α)
    (n : List Char) : alookup (dictSet m k v) n = if n = k then some v else alookup m n := by
  induction m with
  | nil =>
    rcases eq_or_ne n k with h | h
    · subst h; simp [dictSet, alookup]
    · simp [dictSet, alookup, h, Ne.symm h]
  | cons p rest ih =>
    obtain ⟨k1, v1⟩ := p
    rcases eq_or_ne k1 k with h1 | h1
    · subst h1
      rcases eq_or_ne n k1 with h2 | h2
      · subst h2; simp [dictSet, alookup]
      · simp [dictSet, alookup, h2, Ne.symm h2]
    · rcases eq_or_ne k1 n with h2 | h2
      · subst h2
        simp [dictSet, alookup, h1]
      · simp [dictSet, alookup, h1, h2, ih]

/-- Registering a list of tool names for one connection, then looking up. -/
theorem alookup_foldl_dictSet (names : List (List Char)) (c : ConnName)
    (m : List (List Char × ConnName)) (n : List Char) :
    alookup (names.foldl (fun m t => dictSet m t c) m) n =
      if n ∈ names then some c else alookup m n := by
  induction names generalizing m with
  | nil => simp
  | cons t ts ih =>
    simp only [List.foldl_cons]
    rw [ih]
    rcases eq_or_ne n t with h | h
    · subst h
      rw [alookup_dictSet]
      simp
    · simp [alookup_dictSet, h, List.mem_cons]

/-- Pointwise description of the routing table built at `main.py` 180-184. -/
theorem alookup_buildRoutingTable (cs es : List (List Char)) (n : List Char) :
    alookup (buildRoutingTable cs es) n =
      if n ∈ es then some .email else if n ∈ cs then some .crm else none := by
  unfold buildRoutingTable
  rw [alookup_foldl_dictSet, alookup_foldl_dictSet]
  simp [alookup]

/-- Body events contribute no connection-open events. -/
theorem openedNames_map_body (l : List BodyEv) : openedNames (l.map Ev.body) = [] := by
  induction l with
  | nil => rfl
  | cons x xs ih => exact ih

/-- Body events contribute no connection-close events. -/
theorem closedNames_map_body (l : List BodyEv) : closedNames (l.map Ev.body) = [] := by
  induction l with
  | nil => rfl
  | cons x xs ih => exact ih

/-- Body events contribute no outcome reports. -/
theorem countReported_map_body (l : List BodyEv) : countReported (l.map Ev.body) = 0 := by
  induction l with
  | nil => rfl
  | cons x xs ih =>
    unfold countReported at ih ⊢
    simp only [List.map_cons, List.countP_cons, isReportedEv]
    simp [ih]

/-- Counting completion requests distributes over cons of one request. -/
theorem countCompletion_cons_req (l : List BodyEv) :
    countCompletion (.completionRequest :: l) = countCompletion l + 1 := by
  simp [countCompletion, List.countP_cons]

/-- Counting completion requests distributes over append. -/
theorem countCompletion_append (a b : List BodyEv) :
    countCompletion (a ++ b) = countCompletion a + countCompletion b := by
  simp [countCompletion, List.countP_append]

/-- Handling one batch issues no completion request. -/
theorem countCompletion_processCalls (env : RunEnv) (calls : List ToolCallReq)
    (msgs : List Message) : countCompletion (processCalls env calls msgs).events = 0 := by
  induction calls generalizing msgs with
  | nil => rfl
  | cons c rest ih =>
    simp only [processCalls]
    cases h : dispatch_tool_call env.table env.callTool c.name c.args with
    | error n => rfl
    | ok payload =>
      by_cases hs : startsWithSend c.name
      · simp [hs, countCompletion]
      · simpa [hs, countCompletion, List.countP_cons] using ih (msgs ++ [toolMsg c payload])

/-- The loop issues at most `fuel` completion requests, and exactly `fuel`
of them when it exits by exhaustion. -/
theorem runLoop_completion_bound (env : RunEnv) (fuel : Nat) :
    ∀ (cyc : Nat) (msgs : List Message),
      countCompletion (runLoop env fuel cyc msgs).events ≤ fuel ∧
        ((runLoop env fuel cyc msgs).exit = .exhausted →
          countCompletion (runLoop env fuel cyc msgs).events = fuel) := by
  induction fuel with
  | zero => intro cyc msgs; exact ⟨by simp [runLoop, countCompletion], fun _ => rfl⟩
  | succ fuel ih =>
    intro cyc msgs
    cases hempty : (env.responses cyc).calls.isEmpty with
    | true =>
      have hrun : runLoop env (fuel + 1) cyc msgs =
          ⟨.finalText ((env.responses cyc).text.getD []), [.completionRequest], msgs⟩ := by
        simp [runLoop, hempty]
      rw [hrun]
      refine ⟨?_, ?_⟩
      · have : countCompletion [BodyEv.completionRequest] = 1 := rfl
        simp [this]
      · intro h; simp at h
    | false =>
      cases hstep : (processCalls env (env.responses cyc).calls
          (if env.baseUrl then msgs ++ [assistantMsg (env.responses cyc)] else msgs)).step with
      | terminal conf =>
        have hrun : runLoop env (fuel + 1) cyc msgs =
            ⟨.terminalSend conf,
             .completionRequest :: (processCalls env (env.responses cyc).calls
               (if env.baseUrl then msgs ++ [assistantMsg (env.responses cyc)] else msgs)).events,
             (processCalls env (env.responses cyc).calls
               (if env.baseUrl then msgs ++ [assistantMsg (env.responses cyc)] else msgs)).msgs⟩ := by
          simp [runLoop, hempty, hstep]
        rw [hrun]
        refine ⟨?_, ?_⟩
        · simp [countCompletion_cons_req, countCompletion_processCalls]
        · intro h; simp at h
      | dispatchFail n =>
        have hrun : runLoop env (fuel + 1) cyc msgs =
            ⟨.dispatchFail n,
             .completionRequest :: (processCalls env (env.responses cyc).calls
               (if env.baseUrl then msgs ++ [assistantMsg (env.responses cyc)] else msgs)).events,
             (processCalls env (env.responses cyc).calls
               (if env.baseUrl then msgs ++ [assistantMsg (env.responses cyc)] else msgs)).msgs⟩ := by
          simp [runLoop, hempty, hstep]
        rw [hrun]
        refine ⟨?_, ?_⟩
        · simp [countCompletion_cons_req, countCompletion_processCalls]
        · intro h; simp at h
      | continueLoop =>
        have hrun : runLoop env (fuel + 1) cyc msgs =
            ⟨(runLoop env fuel (cyc + 1) (processCalls env (env.responses cyc).calls
                (if env.baseUrl then msgs ++ [assistantMsg (env.responses cyc)] else msgs)).msgs).exit,
             .completionRequest ::
               ((processCalls env (env.responses cyc).calls
                 (if env.baseUrl then msgs ++ [assistantMsg (env.responses cyc)] else msgs)).events ++
                (runLoop env fuel (cyc + 1) (processCalls env (env.responses cyc).calls
                  (if env.baseUrl then msgs ++ [assistantMsg (env.responses cyc)] else msgs)).msgs).events),
             (runLoop env fuel (cyc + 1) (processCalls env (env.responses cyc).calls
               (if env.baseUrl then msgs ++ [assistantMsg (env.responses cyc)] else msgs)).msgs).msgs⟩ := by
          simp [runLoop, hempty, hstep]
        rw [hrun]
        have hrec := ih (cyc + 1) (processCalls env (env.responses cyc).calls
          (if env.baseUrl then msgs ++ [assistantMsg (env.responses cyc)] else msgs)).msgs
        refine ⟨?_, ?_⟩
        · simp only [countCompletion_cons_req, countCompletion_append,
            countCompletion_processCalls]
          omega
        · intro h
          have := hrec.2 h
          simp only [countCompletion_cons_req, countCompletion_append,
            countCompletion_processCalls]
          omega

/-- Projections of `closedNames` through append. -/
theorem closedNames_append (a b : List Ev) :
    closedNames (a ++ b) = closedNames a ++ closedNames b := by
  simp [closedNames, List.filterMap_append]

/-- Projections of `openedNames` through append. -/
theorem openedNames_append (a b : List Ev) :
    openedNames (a ++ b) = openedNames a ++ openedNames b := by
  simp [openedNames, List.filterMap_append]

/-- Projections of `countReported` through append. -/
theorem countReported_append (a b : List Ev) :
    countReported (a ++ b) = countReported a + countReported b := by
  simp [countReported, List.countP_append]

/-- A routed dispatch always succeeds and returns its payload. -/
theorem dispatch_ok_of_isSome (env : RunEnv) (c : ToolCallReq)
    (h : (alookup env.table c.name).isSome = true) :
    dispatch_tool_call env.table env.callTool c.name c.args = .ok (payloadOf env c) := by
  obtain ⟨conn, hconn⟩ := Option.isSome_iff_exists.mp h
  cases hct : env.callTool conn c.name c.args with
  | parts l => simp [payloadOf, dispatch_tool_call, hconn, hct, Except.toOption]
  | scalar s => simp [payloadOf, dispatch_tool_call, hconn, hct, Except.toOption]

/-! Claim theorems. -/

/-- C1: every instruction containing an order-identifier token
(`ORD-` followed by digits, case-insensitively, at word boundaries) makes
the guard decision the fixed ALLOW object and the guard outcome `allowed`,
for every possible classifier output; the classifier branch is not taken,
and a matching block-keyword cannot change the result (the statement
quantifies over all such instructions, keyword-matching ones included). -/
theorem c1_order_id_fast_path (userInput : List Char) (classifierParse : Option PyJson)
    (h : order_id_present userInput = true) :
    guardDecisionObj userInput classifierParse =
      .jobj [(strL "decision", .jstr (strL "ALLOW")),
        (strL "reason", .jstr (strL "Contains order id."))] ∧
    policyGuardOutcome userInput classifierParse = .allowed ∧
    guardConsultsClassifier userInput = false := by
  have hobj : guardDecisionObj userInput classifierParse =
      .jobj [(strL "decision", .jstr (strL "ALLOW")),
        (strL "reason", .jstr (strL "Contains order id."))] := by
    simp [guardDecisionObj, h]
  refine ⟨hobj, ?_, by simp [guardConsultsClassifier, h]⟩
  unfold policyGuardOutcome
  rw [hobj]
  decide

/-- Witness for C1: an instruction that both matches the block keyword
`tell me a joke` and carries an order id is still allowed, whatever the
classifier would have said. -/
theorem c1_witness :
    (order_id_present (strL "tell me a joke about ORD-77") = true ∧
     suspicious (strL "tell me a joke about ORD-77") = true) ∧
    (guardDecisionObj (strL "tell me a joke about ORD-77") (some (.jstr (strL "nonsense"))) =
      .jobj [(strL "decision", .jstr (strL "ALLOW")),
        (strL "reason", .jstr (strL "Contains order id."))] ∧
     policyGuardOutcome (strL "tell me a joke about ORD-77") (some (.jstr (strL "nonsense"))) = .allowed ∧
     guardConsultsClassifier (strL "tell me a joke about ORD-77") = false) :=
  ⟨⟨by decide, by decide⟩, c1_order_id_fast_path _ _ (by decide)⟩

/-- C7 counterexample: a classifier output that is valid JSON but a truthy
non-object (`[1]`) fails to parse as a `decision`/`reason` object, yet the
guard does not fall back to CLARIFY — the decision extraction crashes the
run (`.get` on a non-dict raises `AttributeError`). -/
theorem c7_counterexample :
    policyGuardOutcome (strL "hello there") (some (.jarr [.jnum 1])) = .crashed ∧
    policyGuardOutcome (strL "hello there") (some (.jarr [.jnum 1])) ≠ .clarified := by
  constructor
  · decide
  · decide

/-- C7 amended: when the classifier output is not valid JSON at all (the
JSON parse raises), the guard decision is the fixed
CLARIFY/`unparseable_guard_output` object and the run takes the
clarification branch. -/
theorem c7_unparseable_clarify (userInput : List Char)
    (h1 : order_id_present userInput = false) (h2 : suspicious userInput = false) :
    guardDecisionObj userInput none =
      .jobj [(strL "decision", .jstr (strL "CLARIFY")),
        (strL "reason", .jstr (strL "unparseable_guard_output"))] ∧
    policyGuardOutcome userInput none = .clarified := by
  have hobj : guardDecisionObj userInput none =
      .jobj [(strL "decision", .jstr (strL "CLARIFY")),
        (strL "reason", .jstr (strL "unparseable_guard_output"))] := by
    simp [guardDecisionObj, h1, h2]
  refine ⟨hobj, ?_⟩
  unfold policyGuardOutcome
  rw [hobj]
  decide

/-- Witness for the amended C7 on a concrete harmless instruction. -/
theorem c7_witness :
    (order_id_present (strL "hi friend") = false ∧
     suspicious (strL "hi friend") = false) ∧
    policyGuardOutcome (strL "hi friend") none = .clarified :=
  ⟨⟨by decide, by decide⟩, (c7_unparseable_clarify _ (by decide) (by decide)).2⟩

/-- C9: for a classifier output that parses as an object (and with neither
fast path firing), the decision value is rendered with `str`, uppercased and
compared only against `BLOCK` and `CLARIFY`: a missing `decision` key
defaults to CLARIFY, and any other decision value lets the run proceed
exactly like ALLOW. -/
theorem c9_decision_comparison (userInput : List Char) (l : List (List Char × PyJson))
    (h1 : order_id_present userInput = false) (h2 : suspicious userInput = false) :
    (alookup l (strL "decision") = none →
      policyGuardOutcome userInput (some (.jobj l)) = .clarified) ∧
    (∀ v : PyJson, alookup l (strL "decision") = some v →
      pyUpper (pyStr v) ≠ strL "BLOCK" → pyUpper (pyStr v) ≠ strL "CLARIFY" →
      policyGuardOutcome userInput (some (.jobj l)) = .allowed) := by
  have hobj : guardDecisionObj userInput (some (.jobj l)) = .jobj l := by
    simp [guardDecisionObj, h1, h2]
  constructor
  · intro hnone
    unfold policyGuardOutcome
    rw [hobj]
    cases l with
    | nil => decide
    | cons p rest =>
      simp only [decisionStep, pyTruthy, List.isEmpty_cons, Bool.not_false, if_true]
      rw [hnone]
      decide
  · intro v hv hb hc
    unfold policyGuardOutcome
    rw [hobj]
    cases l with
    | nil => simp [alookup] at hv
    | cons p rest =>
      simp only [decisionStep, pyTruthy, List.isEmpty_cons, Bool.not_false, if_true]
      rw [hv]
      simp [hb, hc]

/-- Witness for C9: a parsed decision `"MAYBE"` proceeds like ALLOW. -/
theorem c9_witness :
    (order_id_present (strL "refund please") = false ∧
     suspicious (strL "refund please") = false ∧
     alookup [(strL "decision", PyJson.jstr (strL "MAYBE"))] (strL "decision") =
       some (.jstr (strL "MAYBE")) ∧
     pyUpper (pyStr (PyJson.jstr (strL "MAYBE"))) ≠ strL "BLOCK" ∧
     pyUpper (pyStr (PyJson.jstr (strL "MAYBE"))) ≠ strL "CLARIFY") ∧
    policyGuardOutcome (strL "refund please")
      (some (.jobj [(strL "decision", .jstr (strL "MAYBE"))])) = .allowed :=
  ⟨⟨by decide, by decide, rfl, by decide, by decide⟩,
   (c9_decision_comparison _ _ (by decide) (by decide)).2 _ rfl (by decide) (by decide)⟩

/-- C5: the routing table built from the two servers maps exactly the union
of the two tool-name sets when they are disjoint, each name to its owning
connection; and any name exposed by the later-registered (email) server is
routed to it — so on a collision the later registration silently wins. -/
theorem c5_routing_table (cs es : List (List Char)) (n : List Char) :
    ((∀ m ∈ cs, m ∉ es) →
      ((alookup (buildRoutingTable cs es) n = some .crm ↔ n ∈ cs) ∧
       (alookup (buildRoutingTable cs es) n = some .email ↔ n ∈ es) ∧
       (alookup (buildRoutingTable cs es) n = none ↔ (n ∉ cs ∧ n ∉ es)))) ∧
    (n ∈ es → alookup (buildRoutingTable cs es) n = some .email) := by
  rw [alookup_buildRoutingTable]
  constructor
  · intro hdisj
    by_cases he : n ∈ es
    · have hc : n ∉ cs := fun hcs => hdisj n hcs he
      simp [he, hc]
    · by_cases hc : n ∈ cs
      · simp [he, hc]
      · simp [he, hc]
  · intro he
    simp [he]

/-- Witness for C5: disjoint CRM/email tool sets route to their owners, and
a name registered by both servers routes to the email server. -/
theorem c5_witness :
    ((∀ m ∈ [strL "get_order", strL "get_email"], m ∉ [strL "send_email"]) ∧
     (alookup (buildRoutingTable [strL "get_order", strL "get_email"] [strL "send_email"])
        (strL "get_order") = some .crm ↔
      strL "get_order" ∈ [strL "get_order", strL "get_email"])) ∧
    (strL "dup" ∈ [strL "dup"] ∧
     alookup (buildRoutingTable [strL "dup"] [strL "dup"]) (strL "dup") = some .email) :=
  ⟨⟨by decide, ((c5_routing_table _ _ _).1 (by decide)).1⟩,
   ⟨by decide, (c5_routing_table _ _ _).2 (by decide)⟩⟩

/-- C6: the dispatcher fails with the fatal routing error exactly when the
tool name has no routing-table entry; otherwise it invokes the tool on its
owning connection with the supplied argument map and returns the newline
join of the textual content fragments, falling back to the literal rendering
of the fragment list when no fragment is textual. -/
theorem c6_dispatcher (table : List (List Char × ConnName))
    (callTool : ConnName → List Char → List (List Char × PyJson) → ToolCallContent)
    (toolName : List Char) (args : List (List Char × PyJson)) :
    (alookup table toolName = none →
      dispatch_tool_call table callTool toolName args = .error toolName) ∧
    (∀ conn, alookup table toolName = some conn →
      ∀ parts, callTool conn toolName args = .parts parts →
        ((parts.filterMap ContentPart.text ≠ [] →
          dispatch_tool_call table callTool toolName args =
            .ok (List.intercalate (strL "\n") (parts.filterMap ContentPart.text))) ∧
         (parts.filterMap ContentPart.text = [] →
          dispatch_tool_call table callTool toolName args =
            .ok (reprOfList (parts.map ContentPart.rep))))) := by
  constructor
  · intro h
    simp [dispatch_tool_call, h]
  · intro conn hconn parts hparts
    constructor
    · intro ht
      simp [dispatch_tool_call, hconn, hparts, renderContent,
        List.isEmpty_iff, ht]
    · intro ht
      simp [dispatch_tool_call, hconn, hparts, renderContent,
        List.isEmpty_iff, ht]

/-- Witness for C6: a missing name fails with the routing error; a routed
name with one textual fragment returns that fragment. -/
theorem c6_witness :
    (alookup [(strL "get_order", ConnName.crm)] (strL "nope") = none ∧
     dispatch_tool_call [(strL "get_order", ConnName.crm)] onlyTextParts (strL "nope") [] =
       .error (strL "nope")) ∧
    (alookup [(strL "get_order", ConnName.crm)] (strL "get_order") = some .crm ∧
     ([⟨some (strL "ok"), strL "TextContent"⟩] : List ContentPart).filterMap ContentPart.text ≠ [] ∧
     dispatch_tool_call [(strL "get_order", ConnName.crm)] onlyTextParts (strL "get_order") [] =
       .ok (strL "ok")) :=
  ⟨⟨rfl, (c6_dispatcher _ _ _ _).1 rfl⟩,
   ⟨rfl, by decide,
    ((c6_dispatcher [(strL "get_order", ConnName.crm)] onlyTextParts (strL "get_order") []).2
      .crm rfl _ rfl).1 (by decide)⟩⟩

/-- C10: when `send_email` finds the order by customer email and its
normalized status is `cancelled`, the stored data — in particular that
order's record — is left entirely unchanged (nothing is saved, the status is
not set to `shipped`, no email event is appended), and the reply payload is
`ok: true` with the fresh message id, the order id, and `skipped:
"cancelled"`. -/
theorem c10_cancelled_skip (data : List (List Char × PyJson))
    (email orderDetails msgId : List Char) (now : Int)
    (oid : List Char) (order : List (List Char × PyJson))
    (hfind : find_order_by_email data email = some (oid, order))
    (hstatus : statusOf order = strL "cancelled") :
    send_email data email orderDetails msgId now =
      (.jobj [(strL "ok", .jbool true), (strL "message_id", .jstr msgId),
        (strL "order_id", .jstr oid), (strL "skipped", .jstr (strL "cancelled"))], data) := by
  simp [send_email, hfind, hstatus]

/-- Witness for C10 on a concrete database with one cancelled order
(status and email both needing strip/lower normalization). -/
theorem c10_witness :
    (find_order_by_email dataW10 (strL "a@x.com") =
       some (strL "ORD-1",
         [ (strL "customer_email", .jstr (strL " A@x.com "))
         , (strL "status", .jstr (strL " CANCELLED ")) ]) ∧
     statusOf [ (strL "customer_email", PyJson.jstr (strL " A@x.com "))
              , (strL "status", PyJson.jstr (strL " CANCELLED ")) ] = strL "cancelled") ∧
    send_email dataW10 (strL "a@x.com") (strL "order ORD-1") (strL "msg_1") 5 =
      (.jobj [(strL "ok", .jbool true), (strL "message_id", .jstr (strL "msg_1")),
        (strL "order_id", .jstr (strL "ORD-1")), (strL "skipped", .jstr (strL "cancelled"))],
       dataW10) :=
  ⟨⟨rfl, rfl⟩, c10_cancelled_skip _ _ _ _ _ _ _ rfl rfl⟩

/-- C3: on every run — every combination of handshake results, credential
presence, guard outcome, and loop behaviour — the connections closed by the
`finally` block are exactly the connections opened, in reverse creation
order, and the run's outcome is reported exactly once, as the last event
(hence after all closes).  This covers in particular the partial-open case
where only the CRM handshake succeeded. -/
theorem c3_cleanup (env : HostEnv) :
    closedNames (run_agent env) = (openedNames (run_agent env)).reverse ∧
    (∃ o, (run_agent env).getLast? = some (Ev.reported o)) ∧
    countReported (run_agent env) = 1 := by
  obtain ⟨o, evs, hb⟩ : ∃ o evs, runBody env = (o, evs) := ⟨_, _, rfl⟩
  cases hc : env.crmConnects with
  | false =>
    have hr : run_agent env = [Ev.reported .setupError] := by
      simp [run_agent, hc]
    rw [hr]
    exact ⟨rfl, ⟨.setupError, rfl⟩, rfl⟩
  | true =>
    cases he : env.emailConnects with
    | false =>
      have hr : run_agent env =
          [Ev.openedConn .crm, Ev.closedConn .crm, Ev.reported .setupError] := by
        simp [run_agent, hc, he]
      rw [hr]
      exact ⟨rfl, ⟨.setupError, rfl⟩, rfl⟩
    | true =>
      have hr : run_agent env =
          ([Ev.openedConn .crm, Ev.openedConn .email] ++ evs.map Ev.body ++
            [Ev.closedConn .email, Ev.closedConn .crm]) ++ [Ev.reported o] := by
        simp [run_agent, hc, he, hb]
      rw [hr]
      refine ⟨?_, ⟨o, List.getLast?_concat _⟩, ?_⟩
      · rw [closedNames_append, closedNames_append, closedNames_append,
          openedNames_append, openedNames_append, openedNames_append,
          closedNames_map_body, openedNames_map_body]
        rfl
      · rw [countReported_append, countReported_append, countReported_append,
          countReported_map_body]
        rfl

/-- C8 counterexample: with both handshakes succeeding and the credential
missing, the run does report `SetupError` — but only after both tool
connections were opened (and their tools listed), contradicting "before any
tool connection is opened or used". -/
theorem c8_counterexample :
    (run_agent envC8).getLast? = some (.reported .setupError) ∧
    openedNames (run_agent envC8) = [.crm, .email] ∧
    openedNames (run_agent envC8) ≠ [] := by
  refine ⟨by decide, by decide, by decide⟩

/-- C8 amended: a missing credential makes the run fail with `SetupError`
before any guard evaluation, completion request or tool dispatch (the trace
holds no such event) — but after both tool connections are opened and their
tools listed; cleanup then closes both connections in reverse order and the
error is reported last. -/
theorem c8_credential_check_position (env : HostEnv)
    (h1 : env.crmConnects = true) (h2 : env.emailConnects = true)
    (h3 : env.apiKeyPresent = false) :
    run_agent env =
      [Ev.openedConn .crm, Ev.openedConn .email,
       Ev.body (.listedTools .crm), Ev.body (.listedTools .email),
       Ev.closedConn .email, Ev.closedConn .crm, Ev.reported .setupError] := by
  simp [run_agent, runBody, h1, h2, h3]

/-- Witness for the amended C8 on the concrete credential-less run. -/
theorem c8_witness :
    (envC8.crmConnects = true ∧ envC8.emailConnects = true ∧
     envC8.apiKeyPresent = false) ∧
    run_agent envC8 =
      [Ev.openedConn .crm, Ev.openedConn .email,
       Ev.body (.listedTools .crm), Ev.body (.listedTools .email),
       Ev.closedConn .email, Ev.closedConn .crm, Ev.reported .setupError] :=
  ⟨⟨rfl, rfl, rfl⟩, c8_credential_check_position envC8 rfl rfl rfl⟩

/-- C2 counterexample: a run that passes the guard (the instruction carries
an order id) whose first provider response requests an unrouted tool leaves
the conversation loop by a fatal `ToolDispatchError` — neither a terminal
state nor `IterationExhaustion`, so a third way of leaving the loop exists. -/
theorem c2_counterexample :
    (run_agent envC2).getLast? = some (.reported (.dispatchError (strL "mystery"))) ∧
    ¬ ((∃ t, (run_agent envC2).getLast? = some (.reported (.finalText t))) ∨
       (∃ t, (run_agent envC2).getLast? = some (.reported (.confirmed t))) ∨
       (run_agent envC2).getLast? = some (.reported .exhausted)) := by
  have h : (run_agent envC2).getLast? = some (.reported (.dispatchError (strL "mystery"))) := by
    decide
  refine ⟨h, ?_⟩
  intro hcl
  rcases hcl with ⟨t, ht⟩ | ⟨t, ht⟩ | ht <;> rw [h] at ht <;> simp at ht

/-- C2 amended: the conversation loop performs at most 8 completion-request
cycles; it leaves the loop by emitting final text, by completing a terminal
send-class tool, by `IterationExhaustion` (exactly when all 8 cycles run
without reaching a terminal state), or by a fatal `ToolDispatchError` raised
during dispatch. -/
theorem c2_loop_bound (env : RunEnv) (cyc : Nat) (msgs : List Message) :
    countCompletion (runLoop env 8 cyc msgs).events ≤ 8 ∧
    ((runLoop env 8 cyc msgs).exit = .exhausted →
      countCompletion (runLoop env 8 cyc msgs).events = 8) ∧
    ((∃ t, (runLoop env 8 cyc msgs).exit = .finalText t) ∨
     (∃ t, (runLoop env 8 cyc msgs).exit = .terminalSend t) ∨
     (runLoop env 8 cyc msgs).exit = .exhausted ∨
     (∃ n, (runLoop env 8 cyc msgs).exit = .dispatchFail n)) := by
  refine ⟨(runLoop_completion_bound env 8 cyc msgs).1,
    (runLoop_completion_bound env 8 cyc msgs).2, ?_⟩
  cases hx : (runLoop env 8 cyc msgs).exit with
  | finalText t => exact Or.inl ⟨t, rfl⟩
  | terminalSend t => exact Or.inr (Or.inl ⟨t, rfl⟩)
  | exhausted => exact Or.inr (Or.inr (Or.inl rfl))
  | dispatchFail n => exact Or.inr (Or.inr (Or.inr ⟨n, rfl⟩))

/-- Witness for the amended C2: a loop whose provider always requests the
same routed non-terminal tool exhausts after exactly 8 completion cycles. -/
theorem c2_witness :
    (runLoop renvW2 8 0 []).exit = .exhausted ∧
    countCompletion (runLoop renvW2 8 0 []).events = 8 :=
  ⟨by decide, (c2_loop_bound renvW2 0 []).2.1 (by decide)⟩

/-- C4: within one batch, calls are dispatched strictly in the listed order;
at the first dispatched send-class tool the batch stops (the result does not
depend on the remaining calls), the fixed confirmation synthesized from the
tool's JSON payload is produced, the batch ends terminally, and — unlike
each preceding non-terminal call, whose payload is appended as a tool-role
message — the terminal call's result is not appended to the conversation
state. -/
theorem c4_terminal_batch (env : RunEnv) (pre : List ToolCallReq) (c : ToolCallReq)
    (post : List ToolCallReq) (msgs : List Message)
    (hpre : ∀ p ∈ pre, (alookup env.table p.name).isSome = true ∧
      startsWithSend p.name = false)
    (hc1 : (alookup env.table c.name).isSome = true)
    (hc2 : startsWithSend c.name = true) :
    processCalls env (pre ++ c :: post) msgs =
      ⟨.terminal (mkConfirmation (env.parseJson (payloadOf env c))),
       pre.map (fun p => BodyEv.dispatched p.name) ++ [BodyEv.dispatched c.name],
       msgs ++ pre.map (fun p => toolMsg p (payloadOf env p))⟩ := by
  induction pre generalizing msgs with
  | nil =>
    have hd := dispatch_ok_of_isSome env c hc1
    simp [processCalls, hd, hc2]
  | cons p ps ih =>
    have hp := hpre p (List.mem_cons_self _ _)
    have hd := dispatch_ok_of_isSome env p hp.1
    have hrest : ∀ q ∈ ps, (alookup env.table q.name).isSome = true ∧
        startsWithSend q.name = false :=
      fun q hq => hpre q (List.mem_cons_of_mem _ hq)
    have hih := ih (msgs ++ [toolMsg p (payloadOf env p)]) hrest
    simp only [List.cons_append, processCalls, hd, hp.2, Bool.false_eq_true, if_false,
      List.append_eq]
    rw [hih]
    simp

/-- Witness for C4: a routed lookup call, then a send-class call, then one
further call that is never dispatched; the confirmation carries the
extracted message id and the terminal call leaves no tool message. -/
theorem c4_witness :
    ((alookup renvW4.table (strL "get_order")).isSome = true ∧
     startsWithSend (strL "get_order") = false ∧
     (alookup renvW4.table (strL "send_email")).isSome = true ∧
     startsWithSend (strL "send_email") = true) ∧
    processCalls renvW4
      [⟨strL "a", strL "get_order", []⟩, ⟨strL "b", strL "send_email", []⟩,
       ⟨strL "d", strL "get_order", []⟩] [] =
      ⟨.terminal (strL "Shipping confirmation sent (message_id=m1)."),
       [.dispatched (strL "get_order"), .dispatched (strL "send_email")],
       [toolMsg ⟨strL "a", strL "get_order", []⟩ (strL "ok")]⟩ := by
  refine ⟨⟨by decide, by decide, by decide, by decide⟩, ?_⟩
  have h := c4_terminal_batch renvW4 [⟨strL "a", strL "get_order", []⟩]
    ⟨strL "b", strL "send_email", []⟩ [⟨strL "d", strL "get_order", []⟩] []
    (by
      intro p hp
      rw [List.mem_singleton] at hp
      subst hp
      exact ⟨by decide, by decide⟩)
    (by decide) (by decide)
  exact h
